import Mathlib

/-!
Verification development for the booking-lifecycle core of the safariOOO
car-rental back office.  The definitions below are a shallow embedding of
`src/app/api/booking/[id]/route.ts`: the `PATCH` boundary handler, the
transactional completion handler `handleCompleteBooking`, and the regular
status-update handler `handleRegularUpdate` (which contains the transactional
cancellation path).  Dates and identifiers are modelled as strings; the two
Mongo collections are modelled as association lists keyed by id; the Mongo
array operators `$push` (with `$each`) and `$pull` (with `$in` and an
`available: null` match) are modelled as list append and list filter; the
session/abort/commit discipline is modelled by a failure oracle: a write step
whose oracle bit is set makes the whole transaction abort, restoring the
pre-call database.
-/

/-- Customer snapshot stored on a booking (full name, email, phone, id number). -/
structure CustomerInfo where
  fullName : String
  email : String
  phone : String
  idNumber : String
deriving DecidableEq

/-- One entry of a car schedule: a set of dates plus an availability marker.
`none` models the JavaScript `null` used as the blocked sentinel. -/
structure ScheduleEntry where
  date : List String
  available : Option Bool
deriving DecidableEq

/-- A car record; only the `schedule` attribute is touched by the core. -/
structure Car where
  schedule : List ScheduleEntry
deriving DecidableEq

/-- The schedule sub-document of a booking.  The `date` field may be absent
(JavaScript `undefined`), hence the `Option`. -/
structure BSchedule where
  date : Option (List String)
deriving DecidableEq

/-- A booking record with the fields the route reads or writes. -/
structure Booking where
  carId : String
  status : String
  customerInfo : CustomerInfo
  schedule : Option BSchedule
deriving DecidableEq

/-- The two collections the route touches, keyed by document id. -/
structure DB where
  bookings : List (String × Booking)
  cars : List (String × Car)
deriving DecidableEq

/-- The parsed JSON request body.  `status` and `action` are the fields the
route inspects; `customerInfo` stands for the extra top-level fields that
`findByIdAndUpdate(id, body)` would also apply to the document. -/
structure Body where
  status : Option String
  action : Option String
  customerInfo : Option CustomerInfo
deriving DecidableEq

/-- The HTTP-style outcome: a success response carries the code, the message
and the booking payload; an error response carries the code and the message. -/
inductive Resp where
  | ok (code : Nat) (message : String) (booking : Option Booking)
  | err (code : Nat) (message : String)
deriving DecidableEq

/-- Whether a response is an error response. -/
def Resp.isErr : Resp → Bool
  | .ok _ _ _ => false
  | .err _ _ => true

/-- The HTTP status code of a response. -/
def Resp.code : Resp → Nat
  | .ok c _ _ => c
  | .err c _ => c

/-- `Model.findById`: first association-list entry with the given key. -/
def findRec {α : Type} : List (String × α) → String → Option α
  | [], _ => none
  | (k, v) :: rest, id => if k = id then some v else findRec rest id

/-- `findByIdAndUpdate` / `updateOne`: rewrite the documents matching the key
with `f`; documents with other keys are untouched, and a missing key makes the
update a silent no-op (Mongo matched-count zero). -/
def setRec {α : Type} (l : List (String × α)) (id : String) (f : α → α) :
    List (String × α) :=
  l.map (fun p => if p.1 = id then (p.1, f p.2) else p)

/-- `mongoose.Types.ObjectId.isValid`: a 12-character string or a 24-character
hexadecimal string (case-insensitive hex digits). -/
def isValidObjectId (s : String) : Bool :=
  s.length == 12 ||
    (s.length == 24 && s.toList.all (fun c =>
      c.isDigit || (c.isLower && c ≤ 'f') || (c.isUpper && c ≤ 'F')))

/-- The list of dates a booking occupies: `booking.schedule.date`, empty when
the schedule or its date field is absent. -/
def bookingDates (b : Booking) : List String :=
  match b.schedule with
  | some s => s.date.getD []
  | none => []

/-- The JavaScript truthiness test `booking.schedule && booking.schedule.date`
guarding the cancellation `$pull` (an empty date array still passes it). -/
def hasScheduleDates (b : Booking) : Bool :=
  match b.schedule with
  | some s => s.date.isSome
  | none => false

/-- The entries pushed on completion: one `{date: [d], available: null}` entry
per occupied date. -/
def blockEntries (b : Booking) : List ScheduleEntry :=
  (bookingDates b).map (fun d => ⟨[d], none⟩)

/-- `Car.updateOne({_id}, {$push: {schedule: {$each: entries}}})`. -/
def pushCar (cars : List (String × Car)) (carId : String)
    (entries : List ScheduleEntry) : List (String × Car) :=
  setRec cars carId (fun c => ⟨c.schedule ++ entries⟩)

/-- `Car.updateOne({_id}, {$pull: {schedule: {date: {$in: dates},
available: null}}})`: drop every entry whose marker is the blocked sentinel
and whose date set meets `dates`. -/
def pullCar (cars : List (String × Car)) (carId : String)
    (dates : List String) : List (String × Car) :=
  setRec cars carId
    (fun c => ⟨c.schedule.filter
      (fun e => !(e.available == none && e.date.any (fun d => dates.contains d)))⟩)

/-- Applying the request body as a document update (`$set` of its top-level
fields): the tracked fields present in the body overwrite the stored ones. -/
def applyBody (body : Body) (b : Booking) : Booking :=
  { b with
    status := body.status.getD b.status
    customerInfo := body.customerInfo.getD b.customerInfo }

/-- The statuses accepted by the regular-update path. -/
def validStatuses : List String := ["pending", "confirmed", "cancelled"]

/-- JavaScript truthiness of the `status` field: present and non-empty (the
empty string is falsy). -/
def statusTruthy : Option String → Bool
  | some s => s != ""
  | none => false

/-- The guard `status && !validStatuses.includes(status)`: a falsy status —
absent or the empty string — does not fire it. -/
def statusBad : Option String → Bool
  | some s => s != "" && !(validStatuses.contains s)
  | none => false

/-- The success message of the regular-update path; the ternary
`status ? status : "updated"` falls back on a falsy (absent or empty) status. -/
def regularMsg (st : Option String) : String :=
  "Booking " ++ (match st with
    | some s => if s == "" then "updated" else s
    | none => "updated") ++ " successfully"

/-- The transactional part of `handleCompleteBooking` (steps 2 to 4): the
booking status write, the conditional car `$push`, and the commit.  The oracle
bit of a step that is reached makes the surrounding try/catch abort the
transaction, leaving the database untouched. -/
def completeTxn (db : DB) (id : String) (b : Booking) (fail : Nat → Bool) :
    DB × Resp :=
  if fail 0 then (db, .err 500 "Failed to complete booking")
  else if bookingDates b ≠ [] ∧ fail 1 = true then
    (db, .err 500 "Failed to complete booking")
  else if fail 2 then (db, .err 500 "Failed to complete booking")
  else
    let bookings1 := setRec db.bookings id (fun bb => { bb with status := "completed" })
    let cars1 :=
      if bookingDates b ≠ [] then pushCar db.cars b.carId (blockEntries b)
      else db.cars
    (⟨bookings1, cars1⟩, .ok 200 "Booking completed successfully" (findRec bookings1 id))

/-- `handleCompleteBooking`: look the booking up inside the session, reject
terminal states, then run the transactional writes. -/
def handleCompleteBookingF (db : DB) (id : String) (fail : Nat → Bool) :
    DB × Resp :=
  match findRec db.bookings id with
  | none => (db, .err 404 "Booking not found")
  | some b =>
    if b.status = "completed" then (db, .err 400 "Booking is already completed")
    else if b.status = "cancelled" then
      (db, .err 400 "Cannot complete a cancelled booking")
    else completeTxn db id b fail

/-- The transactional cancellation path of `handleRegularUpdate`: the booking
update `{...body, status: "cancelled"}`, the conditional car `$pull`, and the
commit, under the same failure-oracle discipline. -/
def cancelTxn (db : DB) (id : String) (body : Body) (existing : Booking)
    (fail : Nat → Bool) : DB × Resp :=
  if fail 0 then (db, .err 500 "Failed to update booking")
  else if hasScheduleDates existing = true ∧ fail 1 = true then
    (db, .err 500 "Failed to update booking")
  else if fail 2 then (db, .err 500 "Failed to update booking")
  else
    let upd := fun bb => { applyBody body bb with status := "cancelled" }
    let bookings1 := setRec db.bookings id upd
    let cars1 :=
      if hasScheduleDates existing then
        pullCar db.cars existing.carId (bookingDates existing)
      else db.cars
    (⟨bookings1, cars1⟩,
      .ok 200 "Booking cancelled successfully" ((findRec db.bookings id).map upd))

/-- `handleRegularUpdate`: status validation, booking lookup, the
completed-booking guard, then either the transactional cancellation or the
plain `findByIdAndUpdate(id, body)`. -/
def handleRegularUpdateF (db : DB) (id : String) (body : Body)
    (fail : Nat → Bool) : DB × Resp :=
  if statusBad body.status then (db, .err 400 "Invalid status")
  else
    match findRec db.bookings id with
    | none => (db, .err 404 "Booking not found")
    | some existing =>
      if existing.status = "completed" ∧ statusTruthy body.status = true then
        (db, .err 400 "Cannot modify a completed booking")
      else if body.status = some "cancelled" ∧ existing.status ≠ "cancelled" then
        cancelTxn db id body existing fail
      else
        match findRec db.bookings id with
        | none => (db, .err 404 "Booking not found")
        | some b =>
          (⟨setRec db.bookings id (applyBody body), db.cars⟩,
            .ok 200 (regularMsg body.status) (some (applyBody body b)))

/-- The `PATCH` boundary handler: id validation, then dispatch on
`action === "complete" || status === "completed"`. -/
def PATCHF (db : DB) (id : String) (body : Body) (fail : Nat → Bool) :
    DB × Resp :=
  if isValidObjectId id = true then
    if body.action = some "complete" ∨ body.status = some "completed" then
      handleCompleteBookingF db id fail
    else handleRegularUpdateF db id body fail
  else (db, .err 400 "Invalid booking ID")

/-- The handler as executed when no storage step fails. -/
def PATCH (db : DB) (id : String) (body : Body) : DB × Resp :=
  PATCHF db id body (fun _ => false)

/-! ### Association-list lemmas -/

/-- Updating a key and reading it back yields the update of the old value. -/
theorem findRec_setRec {α : Type} (l : List (String × α)) (k : String)
    (f : α → α) : findRec (setRec l k f) k = (findRec l k).map f := by
  induction l with
  | nil => rfl
  | cons p rest ih =>
    obtain ⟨a, v⟩ := p
    by_cases h : a = k
    · show findRec ((if a = k then (a, f v) else (a, v)) :: setRec rest k f) k = _
      rw [if_pos h]
      show (if a = k then some (f v) else findRec (setRec rest k f) k)
        = Option.map f (if a = k then some v else findRec rest k)
      rw [if_pos h, if_pos h]
      rfl
    · show findRec ((if a = k then (a, f v) else (a, v)) :: setRec rest k f) k = _
      rw [if_neg h]
      show (if a = k then some v else findRec (setRec rest k f) k)
        = Option.map f (if a = k then some v else findRec rest k)
      rw [if_neg h, if_neg h]
      exact ih

/-- An update on an absent key is a no-op (Mongo matched-count zero). -/
theorem setRec_of_find_none {α : Type} (l : List (String × α)) (k : String)
    (f : α → α) (h : findRec l k = none) : setRec l k f = l := by
  induction l with
  | nil => rfl
  | cons p rest ih =>
    obtain ⟨a, v⟩ := p
    have h1 : findRec ((a, v) :: rest) k = if a = k then some v else findRec rest k := rfl
    rw [h1] at h
    by_cases hp : a = k
    · rw [if_pos hp] at h
      exact Option.noConfusion h
    · rw [if_neg hp] at h
      show (if a = k then (a, f v) else (a, v)) :: setRec rest k f = (a, v) :: rest
      rw [if_neg hp, ih h]

/-- An update whose per-document action is the identity is a no-op. -/
theorem setRec_congr_id {α : Type} (l : List (String × α)) (k : String)
    (f : α → α) (h : ∀ a, f a = a) : setRec l k f = l := by
  induction l with
  | nil => rfl
  | cons p rest ih =>
    obtain ⟨a, v⟩ := p
    show (if a = k then (a, f v) else (a, v)) :: setRec rest k f = (a, v) :: rest
    rw [ih]
    by_cases hp : a = k
    · rw [if_pos hp, h]
    · rw [if_neg hp]

/-! ### Concrete records used by witnesses and counterexamples -/

/-- A syntactically valid booking identifier (24 hexadecimal characters). -/
def okId : String := "aaaaaaaaaaaaaaaaaaaaaaaa"

/-- A customer snapshot captured at booking time. -/
def ci1 : CustomerInfo := ⟨"Alice Mwangi", "alice@example.com", "0700000001", "ID100"⟩

/-- A different customer payload smuggled into a request body. -/
def ci2 : CustomerInfo := ⟨"Mallory", "mallory@example.com", "0700000002", "ID200"⟩

/-- A pending booking occupying two dates on car c1. -/
def bPending2 : Booking := ⟨"c1", "pending", ci1, some ⟨some ["2024-06-01", "2024-06-02"]⟩⟩

/-- Database: the pending two-date booking, its car holding one open entry. -/
def dbPending2 : DB := ⟨[(okId, bPending2)], [("c1", ⟨[⟨["2024-05-01"], some true⟩]⟩)]⟩

/-! ### Claim theorems -/

/-- Claim C3: for every request and every failure injected into the atomic
unit of a complete or cancel operation, if the handler returns an error
response then the database — every booking status and every car schedule —
equals its pre-call value; no half-applied state is observable. -/
theorem atomic_unit_rollback (db : DB) (id : String) (body : Body)
    (fail : Nat → Bool) :
    (PATCHF db id body fail).2.isErr = true → (PATCHF db id body fail).1 = db := by
  unfold PATCHF handleCompleteBookingF handleRegularUpdateF completeTxn cancelTxn
  repeat' split
  all_goals intro h
  all_goals first
    | rfl
    | simp [Resp.isErr] at h

/-- Witness for C3: a completion request whose first transactional write
fails returns an error and leaves the concrete database untouched. -/
theorem atomic_unit_rollback_witness :
    (PATCHF dbPending2 okId ⟨none, some "complete", none⟩ (fun _ => true)).2.isErr = true ∧
    (PATCHF dbPending2 okId ⟨none, some "complete", none⟩ (fun _ => true)).1 = dbPending2 :=
  ⟨by decide, atomic_unit_rollback dbPending2 okId ⟨none, some "complete", none⟩
    (fun _ => true) (by decide)⟩

/-- Claim C1: for a booking in status pending or confirmed whose schedule
records occupied dates d1,...,dn, a request carrying action complete or
status completed sets the booking status to completed, appends to the
referenced car schedule exactly one blocking entry with date list [d] and the
null availability sentinel per occupied date d, and returns the updated
booking with HTTP 200. -/
theorem complete_blocks_each_date (db : DB) (id : String) (body : Body)
    (b : Booking) (c : Car)
    (hid : isValidObjectId id = true)
    (hact : body.action = some "complete" ∨ body.status = some "completed")
    (hb : findRec db.bookings id = some b)
    (hst : b.status = "pending" ∨ b.status = "confirmed")
    (hc : findRec db.cars b.carId = some c) :
    (PATCH db id body).2
      = .ok 200 "Booking completed successfully" (some { b with status := "completed" }) ∧
    findRec (PATCH db id body).1.bookings id = some { b with status := "completed" } ∧
    findRec (PATCH db id body).1.cars b.carId = some ⟨c.schedule ++ blockEntries b⟩ := by
  have hnc : ¬ b.status = "completed" := by
    rcases hst with h | h <;> rw [h] <;> decide
  have hnx : ¬ b.status = "cancelled" := by
    rcases hst with h | h <;> rw [h] <;> decide
  have hrun : PATCH db id body = completeTxn db id b (fun _ => false) := by
    unfold PATCH PATCHF handleCompleteBookingF
    rw [if_pos hid, if_pos hact, hb]
    show (if b.status = "completed" then (db, Resp.err 400 "Booking is already completed")
      else if b.status = "cancelled" then
        (db, Resp.err 400 "Cannot complete a cancelled booking")
      else completeTxn db id b (fun _ => false)) = completeTxn db id b (fun _ => false)
    rw [if_neg hnc, if_neg hnx]
  rw [hrun]
  unfold completeTxn
  simp only [Bool.false_eq_true, if_false, ne_eq, false_and, and_false]
  refine ⟨?_, ?_, ?_⟩
  · simp [findRec_setRec, hb]
  · simp [findRec_setRec, hb]
  · by_cases hd : bookingDates b = []
    · simp [hd, hc, blockEntries]
    · simp [hd, pushCar, findRec_setRec, hc]

/-- Witness for C1 at a concrete pending booking with two occupied dates. -/
theorem complete_blocks_each_date_witness :
    isValidObjectId okId = true ∧
    ((PATCH dbPending2 okId ⟨some "completed", none, none⟩).2
      = .ok 200 "Booking completed successfully" (some { bPending2 with status := "completed" }) ∧
    findRec (PATCH dbPending2 okId ⟨some "completed", none, none⟩).1.bookings okId
      = some { bPending2 with status := "completed" } ∧
    findRec (PATCH dbPending2 okId ⟨some "completed", none, none⟩).1.cars bPending2.carId
      = some ⟨(⟨[⟨["2024-05-01"], some true⟩]⟩ : Car).schedule ++ blockEntries bPending2⟩) :=
  ⟨by decide, complete_blocks_each_date dbPending2 okId ⟨some "completed", none, none⟩
    bPending2 ⟨[⟨["2024-05-01"], some true⟩]⟩ (by decide) (Or.inr rfl) (by decide)
    (Or.inl rfl) (by decide)⟩

/-! ### Reduction lemmas for the handlers -/

/-- Dispatch to the completion handler. -/
theorem patchf_complete (db : DB) (id : String) (body : Body) (fail : Nat → Bool)
    (hid : isValidObjectId id = true)
    (hact : body.action = some "complete" ∨ body.status = some "completed") :
    PATCHF db id body fail = handleCompleteBookingF db id fail := by
  unfold PATCHF
  rw [if_pos hid, if_pos hact]

/-- Dispatch to the regular-update handler. -/
theorem patchf_regular (db : DB) (id : String) (body : Body) (fail : Nat → Bool)
    (hid : isValidObjectId id = true)
    (hact : ¬(body.action = some "complete" ∨ body.status = some "completed")) :
    PATCHF db id body fail = handleRegularUpdateF db id body fail := by
  unfold PATCHF
  rw [if_pos hid, if_neg hact]

/-- The completion handler once the booking lookup succeeds. -/
theorem hcb_some (db : DB) (id : String) (b : Booking) (fail : Nat → Bool)
    (hb : findRec db.bookings id = some b) :
    handleCompleteBookingF db id fail =
      if b.status = "completed" then (db, .err 400 "Booking is already completed")
      else if b.status = "cancelled" then
        (db, .err 400 "Cannot complete a cancelled booking")
      else completeTxn db id b fail := by
  unfold handleCompleteBookingF
  rw [hb]

/-- The regular-update handler once the status is accepted and the booking
lookup succeeds. -/
theorem hru_some (db : DB) (id : String) (body : Body) (b : Booking)
    (fail : Nat → Bool)
    (hb : findRec db.bookings id = some b)
    (hsb : statusBad body.status = false) :
    handleRegularUpdateF db id body fail =
      if b.status = "completed" ∧ statusTruthy body.status = true then
        (db, .err 400 "Cannot modify a completed booking")
      else if body.status = some "cancelled" ∧ b.status ≠ "cancelled" then
        cancelTxn db id body b fail
      else
        (⟨setRec db.bookings id (applyBody body), db.cars⟩,
          .ok 200 (regularMsg body.status) (some (applyBody body b))) := by
  unfold handleRegularUpdateF
  rw [hb, hsb]
  simp only [Bool.false_eq_true, if_false]

/-- The completion transaction with no failure injected. -/
theorem completeTxn_nofail (db : DB) (id : String) (b : Booking) :
    completeTxn db id b (fun _ => false) =
      (⟨setRec db.bookings id (fun bb => { bb with status := "completed" }),
        if bookingDates b ≠ [] then pushCar db.cars b.carId (blockEntries b)
        else db.cars⟩,
      .ok 200 "Booking completed successfully"
        (findRec (setRec db.bookings id (fun bb => { bb with status := "completed" })) id)) := by
  unfold completeTxn
  simp

/-- The cancellation transaction with no failure injected. -/
theorem cancelTxn_nofail (db : DB) (id : String) (body : Body) (existing : Booking) :
    cancelTxn db id body existing (fun _ => false) =
      (⟨setRec db.bookings id (fun bb => { applyBody body bb with status := "cancelled" }),
        if hasScheduleDates existing then
          pullCar db.cars existing.carId (bookingDates existing)
        else db.cars⟩,
      .ok 200 "Booking cancelled successfully"
        ((findRec db.bookings id).map
          (fun bb => { applyBody body bb with status := "cancelled" }))) := by
  unfold cancelTxn
  simp

/-- A confirmed booking that never completed, so it never placed any blocking
entry of its own; it occupies 2024-06-01 on car c1. -/
def bForeign : Booking := ⟨"c1", "confirmed", ci1, some ⟨some ["2024-06-01"]⟩⟩

/-- Database for the C2 scenario: car c1 already carries a blocking entry for
2024-06-01 placed by a different booking's completion. -/
def dbForeign : DB := ⟨[(okId, bForeign)], [("c1", ⟨[⟨["2024-06-01"], none⟩]⟩)]⟩

/-- Claim C2 (code bug): cancelling the confirmed booking — which never placed
a blocking entry itself — succeeds and removes the blocking entry another
booking had placed on the car for the overlapping date: the `$pull` matches on
the date and the null sentinel alone and cannot attribute entries to bookings,
so entries blocked by other bookings do not remain. -/
theorem cancel_removes_foreign_entry :
    (PATCH dbForeign okId ⟨some "cancelled", none, none⟩).2.code = 200 ∧
    findRec (PATCH dbForeign okId ⟨some "cancelled", none, none⟩).1.cars "c1"
      = some ⟨[]⟩ := by
  decide

/-- A cancelled booking on car c1. -/
def bCancelled : Booking := ⟨"c1", "cancelled", ci1, some ⟨some ["2024-06-01"]⟩⟩

/-- Database for the terminal-state scenarios: one cancelled booking, its car
with an empty schedule. -/
def dbCancelled : DB := ⟨[(okId, bCancelled)], [("c1", ⟨[]⟩)]⟩

/-- Counterexample to C4: a confirm request on a cancelled booking succeeds
with HTTP 200 and moves the booking out of the terminal state. -/
theorem cancelled_confirm_escapes :
    (PATCH dbCancelled okId ⟨some "confirmed", none, none⟩).2.code = 200 ∧
    (findRec (PATCH dbCancelled okId ⟨some "confirmed", none, none⟩).1.bookings okId).map
      Booking.status = some "confirmed" := by
  decide

/-- Claim C4 as amended: completed is terminal for every actual transition
request — any request carrying a truthy (non-empty) status value or the
complete action fails with 400 and changes nothing; a cancelled booking
rejects complete with 400, but a regular status update is permitted: a
confirm request succeeds with 200 and moves the status to confirmed, leaving
the terminal state. -/
theorem terminal_status_behavior :
    (∀ (db : DB) (id : String) (body : Body) (b : Booking),
      isValidObjectId id = true →
      findRec db.bookings id = some b →
      b.status = "completed" →
      (statusTruthy body.status = true ∨ body.action = some "complete") →
      (PATCH db id body).1 = db ∧ (PATCH db id body).2.code = 400) ∧
    (∀ (db : DB) (id : String) (body : Body) (b : Booking),
      isValidObjectId id = true →
      findRec db.bookings id = some b →
      b.status = "cancelled" →
      (body.action = some "complete" ∨ body.status = some "completed") →
      (PATCH db id body).1 = db ∧
      (PATCH db id body).2 = .err 400 "Cannot complete a cancelled booking") ∧
    (∀ (db : DB) (id : String) (b : Booking),
      isValidObjectId id = true →
      findRec db.bookings id = some b →
      b.status = "cancelled" →
      (PATCH db id ⟨some "confirmed", none, none⟩).2.code = 200 ∧
      (findRec (PATCH db id ⟨some "confirmed", none, none⟩).1.bookings id).map
        Booking.status = some "confirmed") := by
  refine ⟨?_, ?_, ?_⟩
  · intro db id body b hid hb hcomp hreq
    by_cases hc : body.action = some "complete" ∨ body.status = some "completed"
    · unfold PATCH
      rw [patchf_complete db id body _ hid hc, hcb_some db id b _ hb, if_pos hcomp]
      exact ⟨rfl, rfl⟩
    · have hsome : statusTruthy body.status = true := by
        rcases hreq with h | h
        · exact h
        · exact absurd (Or.inl h) hc
      unfold PATCH
      rw [patchf_regular db id body _ hid hc]
      by_cases hsb : statusBad body.status = true
      · unfold handleRegularUpdateF
        rw [hsb]
        exact ⟨rfl, rfl⟩
      · rw [hru_some db id body b _ hb (by simpa using hsb),
          if_pos ⟨hcomp, hsome⟩]
        exact ⟨rfl, rfl⟩
  · intro db id body b hid hb hcan hact
    unfold PATCH
    rw [patchf_complete db id body _ hid hact, hcb_some db id b _ hb,
      if_neg (by rw [hcan]; decide), if_pos hcan]
    exact ⟨rfl, rfl⟩
  · intro db id b hid hb hcan
    unfold PATCH
    rw [patchf_regular db id _ _ hid (by decide),
      hru_some db id _ b _ hb (by decide),
      if_neg (by simp [hcan]), if_neg (by simp)]
    simp [findRec_setRec, hb, applyBody, Resp.code]

/-- A completed booking on car c1, whose blocking entry is present. -/
def bCompleted : Booking := ⟨"c1", "completed", ci1, some ⟨some ["2024-06-01"]⟩⟩

/-- Database with the completed booking and its blocked car. -/
def dbCompleted : DB := ⟨[(okId, bCompleted)], [("c1", ⟨[⟨["2024-06-01"], none⟩]⟩)]⟩

/-- Witness for the amended C4 at concrete terminal bookings. -/
theorem terminal_status_behavior_witness :
    ((PATCH dbCompleted okId ⟨some "confirmed", none, none⟩).1 = dbCompleted ∧
     (PATCH dbCompleted okId ⟨some "confirmed", none, none⟩).2.code = 400) ∧
    ((PATCH dbCancelled okId ⟨none, some "complete", none⟩).1 = dbCancelled ∧
     (PATCH dbCancelled okId ⟨none, some "complete", none⟩).2
       = .err 400 "Cannot complete a cancelled booking") ∧
    ((PATCH dbCancelled okId ⟨some "confirmed", none, none⟩).2.code = 200 ∧
     (findRec (PATCH dbCancelled okId ⟨some "confirmed", none, none⟩).1.bookings okId).map
       Booking.status = some "confirmed") :=
  ⟨terminal_status_behavior.1 dbCompleted okId ⟨some "confirmed", none, none⟩ bCompleted
      (by decide) (by decide) rfl (Or.inl rfl),
   terminal_status_behavior.2.1 dbCancelled okId ⟨none, some "complete", none⟩ bCancelled
      (by decide) (by decide) rfl (Or.inl rfl),
   terminal_status_behavior.2.2 dbCancelled okId bCancelled
      (by decide) (by decide) rfl⟩

/-- Counterexample to C5: re-invoking cancel on an already-cancelled booking
returns HTTP 200 success, not an invalid-state error. -/
theorem recancel_returns_ok :
    (PATCH dbCancelled okId ⟨some "cancelled", none, none⟩).2.isErr = false ∧
    (PATCH dbCancelled okId ⟨some "cancelled", none, none⟩).2.code = 200 := by
  decide

/-- Claim C5 as amended: re-invoking complete on a completed booking fails
with 400 and appends no duplicate blocking entries (the database is
unchanged); re-invoking cancel on a cancelled booking returns 200 success,
attempts no removal (the car schedules are unchanged), and leaves the status
cancelled. -/
theorem reinvoke_terminal_schedule_unchanged :
    (∀ (db : DB) (id : String) (body : Body) (b : Booking),
      isValidObjectId id = true →
      findRec db.bookings id = some b →
      b.status = "completed" →
      (body.action = some "complete" ∨ body.status = some "completed") →
      (PATCH db id body).1 = db ∧
      (PATCH db id body).2 = .err 400 "Booking is already completed") ∧
    (∀ (db : DB) (id : String) (body : Body) (b : Booking),
      isValidObjectId id = true →
      findRec db.bookings id = some b →
      b.status = "cancelled" →
      body.status = some "cancelled" →
      body.action ≠ some "complete" →
      (PATCH db id body).1.cars = db.cars ∧
      (PATCH db id body).2.code = 200 ∧
      (findRec (PATCH db id body).1.bookings id).map Booking.status
        = some "cancelled") := by
  constructor
  · intro db id body b hid hb hcomp hact
    unfold PATCH
    rw [patchf_complete db id body _ hid hact, hcb_some db id b _ hb, if_pos hcomp]
    exact ⟨rfl, rfl⟩
  · intro db id body b hid hb hcan hst hna
    have hact : ¬(body.action = some "complete" ∨ body.status = some "completed") := by
      rintro (h | h)
      · exact hna h
      · rw [hst] at h
        exact absurd (Option.some.inj h) (by decide)
    unfold PATCH
    rw [patchf_regular db id body _ hid hact,
      hru_some db id body b _ hb (by rw [hst]; decide),
      if_neg (by simp [hcan]), if_neg (by simp [hcan])]
    simp [findRec_setRec, hb, applyBody, hst, Resp.code]

/-- Witness for the amended C5 at the concrete terminal bookings. -/
theorem reinvoke_terminal_schedule_unchanged_witness :
    ((PATCH dbCompleted okId ⟨none, some "complete", none⟩).1 = dbCompleted ∧
     (PATCH dbCompleted okId ⟨none, some "complete", none⟩).2
       = .err 400 "Booking is already completed") ∧
    ((PATCH dbCancelled okId ⟨some "cancelled", none, none⟩).1.cars = dbCancelled.cars ∧
     (PATCH dbCancelled okId ⟨some "cancelled", none, none⟩).2.code = 200 ∧
     (findRec (PATCH dbCancelled okId ⟨some "cancelled", none, none⟩).1.bookings okId).map
       Booking.status = some "cancelled") :=
  ⟨reinvoke_terminal_schedule_unchanged.1 dbCompleted okId ⟨none, some "complete", none⟩
      bCompleted (by decide) (by decide) rfl (Or.inl rfl),
   reinvoke_terminal_schedule_unchanged.2 dbCancelled okId ⟨some "cancelled", none, none⟩
      bCancelled (by decide) (by decide) rfl rfl (by decide)⟩

/-- Counterexample to C6: a request whose status is "completed" — a value
outside pending, confirmed, cancelled — with no action field is not rejected:
it invokes the completion flow, writes storage, and returns 200. -/
theorem status_completed_bypasses_rejection :
    (PATCH dbPending2 okId ⟨some "completed", none, none⟩).2.code = 200 ∧
    (PATCH dbPending2 okId ⟨some "completed", none, none⟩).1 ≠ dbPending2 := by
  decide

/-- Claim C6 as amended: a syntactically malformed booking id is rejected
with 400 before any storage access, and a truthy (non-empty) status value
outside pending, confirmed, cancelled and completed (with no complete action)
is rejected with 400 before any storage access; the database is returned
untouched whatever its contents.  A status of completed instead dispatches to
the completion flow, and the falsy empty-string status passes the guard and
reaches storage. -/
theorem invalid_request_no_storage_access :
    (∀ (db : DB) (id : String) (body : Body),
      isValidObjectId id = false →
      PATCH db id body = (db, .err 400 "Invalid booking ID")) ∧
    (∀ (db : DB) (id : String) (body : Body) (s : String),
      isValidObjectId id = true →
      body.status = some s →
      s ≠ "" →
      validStatuses.contains s = false →
      s ≠ "completed" →
      body.action ≠ some "complete" →
      PATCH db id body = (db, .err 400 "Invalid status")) := by
  constructor
  · intro db id body hid
    unfold PATCH PATCHF
    rw [hid]
    simp
  · intro db id body s hid hst hse hcs hsc hna
    have hact : ¬(body.action = some "complete" ∨ body.status = some "completed") := by
      rintro (h | h)
      · exact hna h
      · rw [hst] at h
        exact hsc (Option.some.inj h)
    unfold PATCH
    rw [patchf_regular db id body _ hid hact]
    unfold handleRegularUpdateF
    have hsb : statusBad body.status = true := by
      have h1 : statusBad (some s) = (s != "" && !(validStatuses.contains s)) := rfl
      rw [hst, h1, hcs]
      simp [hse]
    rw [hsb]
    simp

/-- Witness for the amended C6: a malformed id and an unrecognized status are
both rejected with 400 and a concrete database comes back untouched. -/
theorem invalid_request_no_storage_access_witness :
    PATCH dbPending2 "xyz" ⟨some "confirmed", none, none⟩
      = (dbPending2, .err 400 "Invalid booking ID") ∧
    PATCH dbPending2 okId ⟨some "weird", none, none⟩
      = (dbPending2, .err 400 "Invalid status") :=
  ⟨invalid_request_no_storage_access.1 dbPending2 "xyz" ⟨some "confirmed", none, none⟩
      (by decide),
   invalid_request_no_storage_access.2 dbPending2 okId ⟨some "weird", none, none⟩ "weird"
      (by decide) rfl (by decide) (by decide) (by decide) (by decide)⟩

/-- A `$pull` with an empty date list matches no entry, so it cannot change
any car. -/
theorem pullCar_nil (cars : List (String × Car)) (carId : String) :
    pullCar cars carId [] = cars := by
  unfold pullCar
  apply setRec_congr_id
  intro c
  cases c with
  | mk sched => simp

/-- A `$push` on an absent car id is a silent no-op. -/
theorem pushCar_absent (cars : List (String × Car)) (carId : String)
    (entries : List ScheduleEntry) (h : findRec cars carId = none) :
    pushCar cars carId entries = cars :=
  setRec_of_find_none cars carId _ h

/-- A `$pull` on an absent car id is a silent no-op. -/
theorem pullCar_absent (cars : List (String × Car)) (carId : String)
    (dates : List String) (h : findRec cars carId = none) :
    pullCar cars carId dates = cars :=
  setRec_of_find_none cars carId _ h

/-- Claim C7: when the booking carries zero occupied dates, complete and
cancel still write the booking status (to completed, respectively cancelled),
leave every car schedule untouched, and succeed with 200 instead of erroring. -/
theorem zero_dates_skip_car_write :
    (∀ (db : DB) (id : String) (body : Body) (b : Booking),
      isValidObjectId id = true →
      (body.action = some "complete" ∨ body.status = some "completed") →
      findRec db.bookings id = some b →
      ¬ b.status = "completed" →
      ¬ b.status = "cancelled" →
      bookingDates b = [] →
      (PATCH db id body).2.code = 200 ∧
      (PATCH db id body).1.cars = db.cars ∧
      (findRec (PATCH db id body).1.bookings id).map Booking.status
        = some "completed") ∧
    (∀ (db : DB) (id : String) (body : Body) (b : Booking),
      isValidObjectId id = true →
      body.status = some "cancelled" →
      body.action ≠ some "complete" →
      findRec db.bookings id = some b →
      ¬ b.status = "completed" →
      bookingDates b = [] →
      (PATCH db id body).2.code = 200 ∧
      (PATCH db id body).1.cars = db.cars ∧
      (findRec (PATCH db id body).1.bookings id).map Booking.status
        = some "cancelled") := by
  constructor
  · intro db id body b hid hact hb hnc hnx hd
    unfold PATCH
    rw [patchf_complete db id body _ hid hact, hcb_some db id b _ hb,
      if_neg hnc, if_neg hnx, completeTxn_nofail]
    refine ⟨rfl, ?_, ?_⟩
    · simp [hd]
    · simp [findRec_setRec, hb]
  · intro db id body b hid hst hna hb hnc hd
    have hact : ¬(body.action = some "complete" ∨ body.status = some "completed") := by
      rintro (h | h)
      · exact hna h
      · rw [hst] at h
        exact absurd (Option.some.inj h) (by decide)
    unfold PATCH
    rw [patchf_regular db id body _ hid hact,
      hru_some db id body b _ hb (by rw [hst]; decide)]
    by_cases hbc : b.status = "cancelled"
    · rw [if_neg (by simp [hnc]), if_neg (by simp [hbc])]
      simp [findRec_setRec, hb, applyBody, hst, Resp.code]
    · rw [if_neg (by simp [hnc]), if_pos ⟨hst, hbc⟩, cancelTxn_nofail]
      refine ⟨rfl, ?_, ?_⟩
      · rw [hd, pullCar_nil, ite_self]
      · simp [findRec_setRec, hb]

/-- A pending booking whose schedule carries an (empty) date list. -/
def bNoDates : Booking := ⟨"c1", "pending", ci1, some ⟨some []⟩⟩

/-- Database for the zero-dates scenarios; the car has one blocked entry that
must survive. -/
def dbNoDates : DB := ⟨[(okId, bNoDates)], [("c1", ⟨[⟨["2024-07-01"], none⟩]⟩)]⟩

/-- Witness for C7: completing and cancelling a zero-date booking succeeds
and leaves the concrete car schedule untouched. -/
theorem zero_dates_skip_car_write_witness :
    ((PATCH dbNoDates okId ⟨none, some "complete", none⟩).2.code = 200 ∧
     (PATCH dbNoDates okId ⟨none, some "complete", none⟩).1.cars = dbNoDates.cars ∧
     (findRec (PATCH dbNoDates okId ⟨none, some "complete", none⟩).1.bookings okId).map
       Booking.status = some "completed") ∧
    ((PATCH dbNoDates okId ⟨some "cancelled", none, none⟩).2.code = 200 ∧
     (PATCH dbNoDates okId ⟨some "cancelled", none, none⟩).1.cars = dbNoDates.cars ∧
     (findRec (PATCH dbNoDates okId ⟨some "cancelled", none, none⟩).1.bookings okId).map
       Booking.status = some "cancelled") :=
  ⟨zero_dates_skip_car_write.1 dbNoDates okId ⟨none, some "complete", none⟩ bNoDates
      (by decide) (Or.inl rfl) (by decide) (by decide) (by decide) rfl,
   zero_dates_skip_car_write.2 dbNoDates okId ⟨some "cancelled", none, none⟩ bNoDates
      (by decide) rfl (by decide) (by decide) (by decide) rfl⟩

/-- A pending booking referencing a car id that resolves to no car record. -/
def bGhostCar : Booking := ⟨"ghost", "pending", ci1, some ⟨some ["2024-06-01"]⟩⟩

/-- Database for the missing-car scenarios: no car collection entry at all. -/
def dbGhostCar : DB := ⟨[(okId, bGhostCar)], []⟩

/-- Counterexample to C8: completing a booking whose car record does not
exist reports no failure at all — the response is a plain 200 success. -/
theorem missing_car_no_failure_reported :
    (PATCH dbGhostCar okId ⟨none, some "complete", none⟩).2.isErr = false ∧
    (PATCH dbGhostCar okId ⟨none, some "complete", none⟩).2.code = 200 := by
  decide

/-- Claim C8 as amended: when the referenced car record does not exist, the
schedule-mutation update matches zero documents and the complete or cancel
operation still succeeds with 200; no failure or warning is reported and the
car collection is unchanged. -/
theorem missing_car_silent_success :
    (∀ (db : DB) (id : String) (body : Body) (b : Booking),
      isValidObjectId id = true →
      (body.action = some "complete" ∨ body.status = some "completed") →
      findRec db.bookings id = some b →
      ¬ b.status = "completed" →
      ¬ b.status = "cancelled" →
      findRec db.cars b.carId = none →
      (PATCH db id body).2.code = 200 ∧
      (PATCH db id body).1.cars = db.cars ∧
      (findRec (PATCH db id body).1.bookings id).map Booking.status
        = some "completed") ∧
    (∀ (db : DB) (id : String) (body : Body) (b : Booking),
      isValidObjectId id = true →
      body.status = some "cancelled" →
      body.action ≠ some "complete" →
      findRec db.bookings id = some b →
      ¬ b.status = "completed" →
      findRec db.cars b.carId = none →
      (PATCH db id body).2.code = 200 ∧
      (PATCH db id body).1.cars = db.cars ∧
      (findRec (PATCH db id body).1.bookings id).map Booking.status
        = some "cancelled") := by
  constructor
  · intro db id body b hid hact hb hnc hnx hcar
    unfold PATCH
    rw [patchf_complete db id body _ hid hact, hcb_some db id b _ hb,
      if_neg hnc, if_neg hnx, completeTxn_nofail,
      pushCar_absent db.cars b.carId (blockEntries b) hcar, ite_self]
    refine ⟨rfl, rfl, ?_⟩
    simp [findRec_setRec, hb]
  · intro db id body b hid hst hna hb hnc hcar
    have hact : ¬(body.action = some "complete" ∨ body.status = some "completed") := by
      rintro (h | h)
      · exact hna h
      · rw [hst] at h
        exact absurd (Option.some.inj h) (by decide)
    unfold PATCH
    rw [patchf_regular db id body _ hid hact,
      hru_some db id body b _ hb (by rw [hst]; decide)]
    by_cases hbc : b.status = "cancelled"
    · rw [if_neg (by simp [hnc]), if_neg (by simp [hbc])]
      simp [findRec_setRec, hb, applyBody, hst, Resp.code]
    · rw [if_neg (by simp [hnc]), if_pos ⟨hst, hbc⟩, cancelTxn_nofail,
        pullCar_absent db.cars b.carId (bookingDates b) hcar, ite_self]
      refine ⟨rfl, rfl, ?_⟩
      simp [findRec_setRec, hb]

/-- Witness for the amended C8: completing and cancelling the ghost-car
booking succeeds with 200 and the empty car collection stays empty. -/
theorem missing_car_silent_success_witness :
    ((PATCH dbGhostCar okId ⟨none, some "complete", none⟩).2.code = 200 ∧
     (PATCH dbGhostCar okId ⟨none, some "complete", none⟩).1.cars = dbGhostCar.cars ∧
     (findRec (PATCH dbGhostCar okId ⟨none, some "complete", none⟩).1.bookings okId).map
       Booking.status = some "completed") ∧
    ((PATCH dbGhostCar okId ⟨some "cancelled", none, none⟩).2.code = 200 ∧
     (PATCH dbGhostCar okId ⟨some "cancelled", none, none⟩).1.cars = dbGhostCar.cars ∧
     (findRec (PATCH dbGhostCar okId ⟨some "cancelled", none, none⟩).1.bookings okId).map
       Booking.status = some "cancelled") :=
  ⟨missing_car_silent_success.1 dbGhostCar okId ⟨none, some "complete", none⟩ bGhostCar
      (by decide) (Or.inl rfl) (by decide) (by decide) (by decide) rfl,
   missing_car_silent_success.2 dbGhostCar okId ⟨some "cancelled", none, none⟩ bGhostCar
      (by decide) rfl (by decide) (by decide) (by decide) rfl⟩

/-- Counterexample to C9: a confirm request whose body smuggles a
customerInfo field overwrites the stored customer snapshot — the snapshot is
not immutable under arbitrary extra body fields. -/
theorem body_overwrites_customer_info :
    (findRec (PATCH dbPending2 okId ⟨some "confirmed", none, some ci2⟩).1.bookings okId).map
      Booking.customerInfo
      ≠ (findRec dbPending2.bookings okId).map Booking.customerInfo := by
  decide

/-- Claim C9 as amended: for every transition request whose body carries no
customerInfo field, the booking customer snapshot after the operation equals
its pre-call value, on every path (confirm, cancel, complete, and every error
path). -/
theorem customer_info_preserved (db : DB) (id : String) (body : Body)
    (hci : body.customerInfo = none) :
    (findRec (PATCH db id body).1.bookings id).map Booking.customerInfo
      = (findRec db.bookings id).map Booking.customerInfo := by
  unfold PATCH PATCHF handleCompleteBookingF handleRegularUpdateF completeTxn cancelTxn
  repeat' split
  all_goals try rfl
  all_goals
    simp only [findRec_setRec]
    cases findRec db.bookings id <;> simp [applyBody, hci]

/-- Witness for the amended C9: a confirm request without a customerInfo
field leaves the concrete customer snapshot unchanged. -/
theorem customer_info_preserved_witness :
    (findRec (PATCH dbPending2 okId ⟨some "confirmed", none, none⟩).1.bookings okId).map
      Booking.customerInfo
      = (findRec dbPending2.bookings okId).map Booking.customerInfo :=
  customer_info_preserved dbPending2 okId ⟨some "confirmed", none, none⟩ rfl

/-- Claim C10: a confirm request on an already-confirmed booking succeeds
with HTTP 200, leaves the status confirmed, and performs no car-schedule
mutation, rather than failing with an invalid-state error. -/
theorem confirm_idempotent_boundary (db : DB) (id : String) (b : Booking)
    (hid : isValidObjectId id = true)
    (hb : findRec db.bookings id = some b)
    (hconf : b.status = "confirmed") :
    (PATCH db id ⟨some "confirmed", none, none⟩).2.code = 200 ∧
    (findRec (PATCH db id ⟨some "confirmed", none, none⟩).1.bookings id).map
      Booking.status = some "confirmed" ∧
    (PATCH db id ⟨some "confirmed", none, none⟩).1.cars = db.cars := by
  unfold PATCH
  rw [patchf_regular db id ⟨some "confirmed", none, none⟩ _ hid (by decide),
    hru_some db id ⟨some "confirmed", none, none⟩ b _ hb (by decide),
    if_neg (by simp [hconf]), if_neg (by simp)]
  refine ⟨rfl, ?_, rfl⟩
  simp [findRec_setRec, hb, applyBody]

/-- An already-confirmed booking on car c1. -/
def bConfirmed : Booking := ⟨"c1", "confirmed", ci1, some ⟨some ["2024-06-01"]⟩⟩

/-- Database with the confirmed booking and a car entry that must survive. -/
def dbConfirmed : DB := ⟨[(okId, bConfirmed)], [("c1", ⟨[⟨["2024-06-01"], none⟩]⟩)]⟩

/-- Witness for C10 at a concrete confirmed booking. -/
theorem confirm_idempotent_boundary_witness :
    (PATCH dbConfirmed okId ⟨some "confirmed", none, none⟩).2.code = 200 ∧
    (findRec (PATCH dbConfirmed okId ⟨some "confirmed", none, none⟩).1.bookings okId).map
      Booking.status = some "confirmed" ∧
    (PATCH dbConfirmed okId ⟨some "confirmed", none, none⟩).1.cars = dbConfirmed.cars :=
  confirm_idempotent_boundary dbConfirmed okId bConfirmed (by decide) (by decide) rfl
